import Mathlib

/-!
Verification of the image-crusher media pipeline: a shallow embedding of the
path derivation, asset classification, settings selection, thumbnail logic,
streaming-upload finalization and bulk orchestration counting, translated
from the Python sources (`RunBulk.py`, `main.py`, `src/FileProcessor.py`,
`src/VideoCompressionUtils.py`, `src/CompressionUtils.py`, `src/constants.py`),
together with theorems settling the specification claims.
-/

namespace ImageCrusher

/-! ## Constants (src/constants.py) -/

/-- `THUMBNAIL_HEIGHT = 512` from src/constants.py. -/
def THUMBNAIL_HEIGHT : Nat := 512

/-- `IMAGE_OUTPUT_FORMAT = "webp"` from src/constants.py. -/
def IMAGE_OUTPUT_FORMAT : String := "webp"

/-- `IMAGE_OUTPUT_QUALITY = 90` from src/constants.py. -/
def IMAGE_OUTPUT_QUALITY : Nat := 90

/-- `SUPPORTED_IMAGE_EXTENSIONS` from src/constants.py (also duplicated as
`CompressionUtils.SUPPORTED_EXTENSIONS` in src/CompressionUtils.py). -/
def SUPPORTED_IMAGE_EXTENSIONS : List String :=
  [".jpg", ".jpeg", ".png", ".bmp", ".tiff", ".tif", ".gif", ".webp"]

/-- `SUPPORTED_IMAGE_MIMETYPES` from src/constants.py (also duplicated as
`CompressionUtils.SUPPORTED_MIMETYPES`). -/
def SUPPORTED_IMAGE_MIMETYPES : List String :=
  ["image/jpeg", "image/png", "image/bmp", "image/tiff", "image/gif", "image/webp"]

/-- `VIDEO_FORMATS` from src/constants.py. -/
def VIDEO_FORMATS : List String :=
  [".mp4", ".mov", ".avi", ".wmv", ".flv", ".mkv",
   ".webm", ".m4v", ".mpg", ".mpeg", ".3gp", ".3g2",
   ".ts", ".mts", ".m2ts", ".mp2", ".MP4"]

/-- The settings tuple returned by the adaptive settings selector
(the Python dicts `SMALL/MEDIUM/LARGE_VIDEO_SETTINGS`). -/
structure CompressionSettings where
  crf : Nat
  resolution : Nat
  audio_bitrate : Nat
deriving DecidableEq, Repr

/-- `SMALL_VIDEO_SETTINGS` from src/constants.py. -/
def SMALL_VIDEO_SETTINGS : CompressionSettings :=
  { crf := 25, resolution := 720, audio_bitrate := 96 }

/-- `MEDIUM_VIDEO_SETTINGS` from src/constants.py. -/
def MEDIUM_VIDEO_SETTINGS : CompressionSettings :=
  { crf := 28, resolution := 720, audio_bitrate := 64 }

/-- `LARGE_VIDEO_SETTINGS` from src/constants.py. -/
def LARGE_VIDEO_SETTINGS : CompressionSettings :=
  { crf := 30, resolution := 480, audio_bitrate := 32 }

/-- `SMALL_VIDEO_THRESHOLD = 1` (GiB) from src/constants.py. -/
def SMALL_VIDEO_THRESHOLD : Nat := 1

/-- `MEDIUM_VIDEO_THRESHOLD = 5` (GiB) from src/constants.py. -/
def MEDIUM_VIDEO_THRESHOLD : Nat := 5

/-- `VIDEO_FORMAT_WEBM = "webm"` from src/constants.py. -/
def VIDEO_FORMAT_WEBM : String := "webm"

/-- `VIDEO_FORMAT_MP4 = "mp4"` from src/constants.py. -/
def VIDEO_FORMAT_MP4 : String := "mp4"

/-- `VIDEO_FORMAT_TS = "ts"` from src/constants.py. -/
def VIDEO_FORMAT_TS : String := "ts"

/-- `VIDEO_OUTPUT_FORMAT = VIDEO_FORMAT_TS` from src/constants.py. -/
def VIDEO_OUTPUT_FORMAT : String := VIDEO_FORMAT_TS

/-- `TYPE_UNKNOWN = "unknown"` from src/constants.py. -/
def TYPE_UNKNOWN : String := "unknown"

/-- `TYPE_IMAGE = "image"` from src/constants.py. -/
def TYPE_IMAGE : String := "image"

/-- `TYPE_VIDEO = "video"` from src/constants.py. -/
def TYPE_VIDEO : String := "video"

/-- `THUMBS_DIRECTORY = "THUMBS"` from src/constants.py. -/
def THUMBS_DIRECTORY : String := "THUMBS"

/-- `COMPRESSED_DIRECTORY = "COMPRESSED"` from src/constants.py. -/
def COMPRESSED_DIRECTORY : String := "COMPRESSED"

/-! ## Python string/path primitives

The Python code manipulates object paths with `os.path` (posixpath inside the
Linux containers) and the string operators `in`, `.endswith`, `.startswith`,
`.lower`, `.upper`.  These are embedded below over `String`/`List Char`. -/

/-- Index of the last occurrence of `c` in `l` (Python `str.rfind`, as an
`Option` instead of `-1`). -/
def lastIdx (c : Char) (l : List Char) : Option Nat :=
  ((l.enum.filter fun p => p.2 == c).map Prod.fst).getLast?

/-- Python substring test `needle in hay` on character lists. -/
def is_sub_list : List Char → List Char → Bool
  | needle, [] => needle.isEmpty
  | needle, c :: rest => needle.isPrefixOf (c :: rest) || is_sub_list needle rest

/-- Python `needle in hay` for strings. -/
def str_in (needle hay : String) : Bool := is_sub_list needle.data hay.data

/-- Python `s.endswith(suffix_str)`. -/
def py_endswith (s sfx : String) : Bool := sfx.data.isSuffixOf s.data

/-- Python `s.startswith(pre)`. -/
def py_startswith (s pre : String) : Bool := pre.data.isPrefixOf s.data

/-- Python `s.lower()` (ASCII, which covers every path this code builds). -/
def py_lower (s : String) : String := String.mk (s.data.map Char.toLower)

/-- Python `s.upper()` (ASCII). -/
def py_upper (s : String) : String := String.mk (s.data.map Char.toUpper)

/-- `posixpath.dirname`: take everything up to the final slash, then strip
trailing slashes unless the head consists solely of slashes. -/
def posix_dirname (p : String) : String :=
  match lastIdx '/' p.data with
  | none => ""
  | some i =>
    let head := p.data.take (i + 1)
    if head.all fun c => c == '/' then String.mk head
    else String.mk ((head.reverse.dropWhile fun c => c == '/').reverse)

/-- `posixpath.basename`: everything after the final slash. -/
def posix_basename (p : String) : String :=
  match lastIdx '/' p.data with
  | none => p
  | some i => String.mk (p.data.drop (i + 1))

/-- `posixpath.splitext`: split off the extension at the last dot of the
basename, treating an all-dots filename head (e.g. `.bashrc`) as having no
extension. -/
def posix_splitext (p : String) : String × String :=
  let l := p.data
  let sepIdx : Int := match lastIdx '/' l with | none => -1 | some i => (i : Int)
  let dotIdx : Int := match lastIdx '.' l with | none => -1 | some i => (i : Int)
  if sepIdx < dotIdx then
    let start : Nat := (sepIdx + 1).toNat
    let stop : Nat := dotIdx.toNat
    let between := (l.drop start).take (stop - start)
    if between.any fun c => !(c == '.') then
      (String.mk (l.take stop), String.mk (l.drop stop))
    else (p, "")
  else (p, "")

/-- Two-argument `posixpath.join`; the three-argument calls in the source are
`posix_join2 (posix_join2 a b) c`. -/
def posix_join2 (a b : String) : String :=
  if py_startswith b "/" then b
  else if a == "" || py_endswith a "/" then a ++ b
  else a ++ "/" ++ b

/-! ## Derived-path functions (RunBulk.py and FileProcessor._prepare_file_paths) -/

/-- `RunBulk.get_thumb_path`: `os.path.join(directory, "THUMBS", f"{name}.webp")`. -/
def get_thumb_path (blob_path : String) : String :=
  let directory := posix_dirname blob_path
  let basename := posix_basename blob_path
  let name_without_ext := (posix_splitext basename).1
  posix_join2 (posix_join2 directory "THUMBS") (name_without_ext ++ ".webp")

/-- `RunBulk.get_compressed_path`:
`os.path.join(directory, "COMPRESSED", f"{name}.{video_format}")`. -/
def get_compressed_path (blob_path : String) (video_format : String) : String :=
  let directory := posix_dirname blob_path
  let basename := posix_basename blob_path
  let name_without_ext := (posix_splitext basename).1
  posix_join2 (posix_join2 directory "COMPRESSED") (name_without_ext ++ ("." ++ video_format))

/-- The path dictionary built by `FileProcessor._prepare_file_paths`. -/
structure FilePaths where
  file_dir : String
  file_basename : String
  file_name_without_ext : String
  thumb_dir : String
  compressed_dir : String
  thumbs_path : String
  compressed_path : String
deriving DecidableEq, Repr

/-- `FileProcessor._prepare_file_paths`: output locations the video pipeline
writes to.  Note the compressed path extension is the literal `".webm"`. -/
def prepare_file_paths (file_name : String) : FilePaths :=
  let file_dir := posix_dirname file_name
  let file_basename := posix_basename file_name
  let nwe := (posix_splitext file_basename).1
  let thumb_dir := posix_join2 file_dir THUMBS_DIRECTORY
  let compressed_dir := posix_join2 file_dir COMPRESSED_DIRECTORY
  { file_dir := file_dir
    file_basename := file_basename
    file_name_without_ext := nwe
    thumb_dir := thumb_dir
    compressed_dir := compressed_dir
    thumbs_path := posix_join2 thumb_dir (nwe ++ ("." ++ IMAGE_OUTPUT_FORMAT))
    compressed_path := posix_join2 compressed_dir (nwe ++ ".webm") }

/-! ## Asset classifier (CompressionUtils.is_supported_image,
FileProcessor.is_video_file / get_file_type) -/

/-- Python truthiness of an optional string (`None` and `""` are falsy). -/
def py_truthy : Option String → Bool
  | none => false
  | some s => !(s == "")

/-- `CompressionUtils.is_supported_image`: mimetype hit, else extension of the
lowercased name, else `False`. -/
def is_supported_image (content_type file_name : Option String) : Bool :=
  (match content_type with
   | some ct => !(ct == "") && SUPPORTED_IMAGE_MIMETYPES.contains ct
   | none => false) ||
  (match file_name with
   | some f => !(f == "") && SUPPORTED_IMAGE_EXTENSIONS.contains (posix_splitext (py_lower f)).2
   | none => false)

/-- `FileProcessor.is_video_file`: content type starting with `video/`, else
video extension of the lowercased name. -/
def is_video_file (content_type file_name : Option String) : Bool :=
  (match content_type with
   | some ct => !(ct == "") && py_startswith ct "video/"
   | none => false) ||
  (match file_name with
   | some f => !(f == "") && VIDEO_FORMATS.contains (posix_splitext (py_lower f)).2
   | none => false)

/-- `FileProcessor.get_file_type`: video checked first, then image, else
unknown. -/
def get_file_type (content_type file_name : Option String) : String :=
  if is_video_file content_type file_name then TYPE_VIDEO
  else if is_supported_image content_type file_name then TYPE_IMAGE
  else TYPE_UNKNOWN

/-! ## Bulk enumeration and selection filters (RunBulk.py) -/

/-- The per-blob skip condition inside `RunBulk.list_files_in_folder`'s
recursive listing loop (uppercase names only). -/
def bulk_enumeration_skip (name : String) : Bool :=
  str_in "/THUMBS/" name || py_endswith name "/THUMBS" ||
  str_in "/COMPRESSED/" name || py_endswith name "/COMPRESSED"

/-- `RunBulk.should_process_file`: skip the four literal-case derived-directory
spellings, then require a supported file type. -/
def should_process_file (name : String) (content_type : Option String) : Bool :=
  if str_in "/THUMBS/" name || str_in "/thumbs/" name ||
     str_in "/COMPRESSED/" name || str_in "/compressed/" name then false
  else !(get_file_type content_type (some name) == TYPE_UNKNOWN)

/-! ## Bulk orchestrator counting (RunBulk.process_files_in_parallel)

A blob in the bulk run is abstracted by its name and content type together
with the two oracles the orchestrator consults: whether
`processed_file_exists` finds its derived outputs in the object store, and
whether `process_single_file` (the container HTTP call) returns success for
it.  Each element of `to_process` is submitted to the thread pool exactly
once and its boolean result counted exactly once, so the final counters do
not depend on completion order; the counting below reflects that loop. -/

structure Blob where
  name : String
  content_type : Option String
  already_processed : Bool
  process_ok : Bool
deriving DecidableEq, Repr

/-- The `to_process` filter loop of `RunBulk.process_files_in_parallel`:
unsupported blobs and blobs whose processed outputs already exist are
dropped (with a log line) before any work is submitted. -/
def to_process (blobs : List Blob) : List Blob :=
  blobs.filter fun b =>
    should_process_file b.name b.content_type && !b.already_processed

/-- The `(success_count, fail_count)` result of
`RunBulk.process_files_in_parallel`: one increment per completed future,
success when `process_single_file` returned `True`. -/
def process_files_in_parallel (blobs : List Blob) : Nat × Nat :=
  let tp := to_process blobs
  (tp.countP (fun b => b.process_ok), tp.countP (fun b => !b.process_ok))

/-! ## Adaptive settings selector (VideoCompressionUtils.determine_video_settings) -/

/-- `VideoCompressionUtils.determine_video_settings`: bucket by
`file_size_bytes / 2^30` against the GiB thresholds (exact rational
arithmetic; the Python float division by `2^30` is exact for these
comparisons). -/
def determine_video_settings (file_size_bytes : Nat) : CompressionSettings :=
  let file_size_gb : ℚ := (file_size_bytes : ℚ) / (1024 * 1024 * 1024)
  if file_size_gb < (SMALL_VIDEO_THRESHOLD : ℚ) then SMALL_VIDEO_SETTINGS
  else if file_size_gb < (MEDIUM_VIDEO_THRESHOLD : ℚ) then MEDIUM_VIDEO_SETTINGS
  else LARGE_VIDEO_SETTINGS

/-- The three size buckets of the selector. -/
inductive SizeBucket where
  | small
  | medium
  | large
deriving DecidableEq, Repr

/-- The bucket chosen by `determine_video_settings`, with the same branch
conditions. -/
def determine_video_bucket (file_size_bytes : Nat) : SizeBucket :=
  let file_size_gb : ℚ := (file_size_bytes : ℚ) / (1024 * 1024 * 1024)
  if file_size_gb < (SMALL_VIDEO_THRESHOLD : ℚ) then .small
  else if file_size_gb < (MEDIUM_VIDEO_THRESHOLD : ℚ) then .medium
  else .large

/-- The fixed settings tuple of each bucket. -/
def bucket_settings : SizeBucket → CompressionSettings
  | .small => SMALL_VIDEO_SETTINGS
  | .medium => MEDIUM_VIDEO_SETTINGS
  | .large => LARGE_VIDEO_SETTINGS

/-! ## Thumbnail position and resolution clamp -/

/-- `VideoCompressionUtils.determine_thumbnail_position`: midpoint under 10
seconds, else `min(3, duration / 10)`. -/
def determine_thumbnail_position (duration : ℚ) : ℚ :=
  if duration < 10 then duration / 2
  else min 3 (duration / 10)

/-- The resolution adjustment in `FileProcessor.process_video` (lines
191-194): clamp the target down to the probed height when that height is
known (positive) and smaller. -/
def adjust_resolution (video_height : Nat) (settings : CompressionSettings) :
    CompressionSettings :=
  if 0 < video_height ∧ video_height < settings.resolution then
    { crf := settings.crf, resolution := video_height,
      audio_bitrate := settings.audio_bitrate }
  else settings

/-! ## Thumbnail extraction with fallback (VideoCompressionUtils.extract_thumbnail)

`subprocess.run(cmd, check=True, timeout=10)` has three relevant outcomes:
normal zero exit, `TimeoutExpired`, or `CalledProcessError` (nonzero exit).
The fallback run has no `timeout` argument, so it can only succeed or raise
`CalledProcessError`. -/

inductive RunResult where
  | ok
  | timedOut
  | nonzeroExit
deriving DecidableEq, Repr

/-- A `subprocess.run` invocation: argument vector, optional timeout in
seconds, and whether `check=True` was passed. -/
structure SubprocessCall where
  cmd : List String
  timeout_s : Option Nat
  check : Bool
deriving DecidableEq, Repr

/-- The `-vf` filter string both thumbnail attempts pass to ffmpeg. -/
def thumb_scale_arg (thumb_height_str : String) : String :=
  "scale=-2:" ++ thumb_height_str ++ ":flags=accurate_rnd,format=yuv420p"

/-- The primary thumbnail attempt of
`VideoCompressionUtils.extract_thumbnail`: seek to the heuristic offset,
grab one frame, 10-second time budget. -/
def primary_thumbnail_call (url thumb_time_str thumb_height_str out_path : String) :
    SubprocessCall :=
  { cmd := ["ffmpeg", "-y",
            "-ss", thumb_time_str,
            "-i", url,
            "-vframes", "1",
            "-vf", thumb_scale_arg thumb_height_str,
            "-c:v", "webp",
            "-pix_fmt", "yuv420p",
            "-quality", toString IMAGE_OUTPUT_QUALITY,
            out_path]
    timeout_s := some 10
    check := true }

/-- The fallback thumbnail attempt: first frame, no time budget, same scale
filter and quality settings. -/
def fallback_thumbnail_call (url thumb_height_str out_path : String) :
    SubprocessCall :=
  { cmd := ["ffmpeg", "-y",
            "-i", url,
            "-vframes", "1",
            "-vf", thumb_scale_arg thumb_height_str,
            "-c:v", "webp",
            "-pix_fmt", "yuv420p",
            "-quality", toString IMAGE_OUTPUT_QUALITY,
            out_path]
    timeout_s := none
    check := true }

/-- The error that escapes `extract_thumbnail` when the fallback run also
exits nonzero (`subprocess.CalledProcessError` from `check=True`). -/
def thumbnail_error : String := "CalledProcessError"

/-- Control flow of `VideoCompressionUtils.extract_thumbnail`, given the
outcome of the primary attempt and whether the fallback attempt (if reached)
exits zero.  Returns (fallback was invoked, overall result). -/
def extract_thumbnail (primary : RunResult) (fallback_ok : Bool) :
    Bool × Except String Unit :=
  match primary with
  | .ok => (false, .ok ())
  | _ => (true, if fallback_ok then .ok () else .error thumbnail_error)

/-! ## Streaming transcode-upload finalization
(VideoCompressionUtils.create_upload_worker, FileProcessor.process_video)

The uploader thread either finishes its PUT before the 60-second wait
expires (with a 2xx status or not) or is still running when the wait times
out. -/

inductive UploadOutcome where
  | completed (httpOk : Bool)
  | pending
deriving DecidableEq, Repr

/-- State of the worker thread's closure cell and completion event at the
moment the main thread's 60-second wait returns. -/
structure UploadThreadState where
  err : Option String
  event_set : Bool
deriving DecidableEq, Repr

/-- What the closure in `create_upload_worker` does to its own nonlocal
`upload_error` cell and the `upload_success` event: on a non-2xx PUT it
raises internally, stores the exception in the cell and sets the event; on
success it sets the event with the cell still `None`; if the PUT is still
in flight nothing has been recorded yet. -/
def upload_worker_run : UploadOutcome → UploadThreadState
  | .completed true => { err := none, event_set := true }
  | .completed false =>
      { err := some "Upload failed: HTTP error", event_set := true }
  | .pending => { err := none, event_set := false }

/-- The third component of the tuple `create_upload_worker` returns: the
value of its local `upload_error` at return time, which is `None`.  The
caller in `FileProcessor.process_video` binds its own `upload_error` name
to this value; the worker's later `nonlocal` rebinding happens in
`create_upload_worker`'s frame and is invisible to the caller. -/
def create_upload_worker_error_binding : Option String := none

/-- The end of the transcode block of `FileProcessor.process_video` (lines
256-281): fail on nonzero ffmpeg exit; on zero exit call
`upload_success.wait(timeout=60)` discarding its boolean result, then test
the caller-bound `upload_error`. -/
def pipeline_finalize (ffmpeg_returncode : Int) (upload : UploadOutcome) :
    Except String Unit :=
  if ffmpeg_returncode ≠ 0 then
    .error ("FFmpeg failed with code " ++ toString ffmpeg_returncode)
  else
    let _wait_result : Bool := (upload_worker_run upload).event_set
    match create_upload_worker_error_binding with
    | some e => .error ("Upload failed: " ++ e)
    | none => .ok ()

/-- The video pipeline of `FileProcessor.process_video` at the granularity
the claims need: choose settings from the source size, clamp the resolution
by the probed height, pick the thumbnail offset, run thumbnail extraction
(whose exception propagates out of the pipeline), then run the
transcode/upload finalization. -/
def process_video_model (file_size_bytes : Nat) (duration : ℚ)
    (video_height : Nat) (primary_thumb : RunResult) (fallback_ok : Bool)
    (ffmpeg_returncode : Int) (upload : UploadOutcome) :
    Except String Unit :=
  let settings := determine_video_settings file_size_bytes
  let _settings := adjust_resolution video_height settings
  let _thumb_time := determine_thumbnail_position duration
  match (extract_thumbnail primary_thumb fallback_ok).2 with
  | .error e => .error e
  | .ok _ => pipeline_finalize ffmpeg_returncode upload

/-- `format_type = output_format or VIDEO_OUTPUT_FORMAT` in
`VideoCompressionUtils.build_ffmpeg_command` and `create_upload_worker`
(`FileProcessor.process_video` passes no `output_format`, so `none` here). -/
def ffmpeg_format_type (output_format : Option String) : String :=
  match output_format with
  | none => VIDEO_OUTPUT_FORMAT
  | some f => if f == "" then VIDEO_OUTPUT_FORMAT else f

/-! ## Image thumbnail encoder dimensions (CompressionUtils.compress_image) -/

/-- The PIL transpose operations used for EXIF orientation correction. -/
inductive TransposeOp where
  | flip_lr
  | flip_tb
  | rot90
  | rot180
  | rot270
deriving DecidableEq, Repr

/-- Effect of one transpose operation on (width, height). -/
def transpose_dims : TransposeOp → Nat × Nat → Nat × Nat
  | .flip_lr, (w, h) => (w, h)
  | .flip_tb, (w, h) => (w, h)
  | .rot180, (w, h) => (w, h)
  | .rot90, (w, h) => (h, w)
  | .rot270, (w, h) => (h, w)

/-- The transpose sequence `compress_image` applies for each EXIF
orientation tag value (274); values outside 2..8 (including a missing tag)
apply nothing. -/
def orientation_ops (orientation : Nat) : List TransposeOp :=
  match orientation with
  | 2 => [.flip_lr]
  | 3 => [.rot180]
  | 4 => [.flip_tb]
  | 5 => [.flip_lr, .rot90]
  | 6 => [.rot270]
  | 7 => [.flip_lr, .rot270]
  | 8 => [.rot90]
  | _ => []

/-- Dimensions after orientation correction. -/
def apply_orientation (orientation : Nat) (wh : Nat × Nat) : Nat × Nat :=
  (orientation_ops orientation).foldl (fun s op => transpose_dims op s) wh

/-- The output dimensions of `CompressionUtils.compress_image`: after
orientation correction, keep the original size when the actual height is
already at most the target, else resize to the target height with
`new_width = int(width * (height / height_actual))`. -/
def compress_image_dims (orientation w h : Nat) (height : Nat) : Nat × Nat :=
  let p := apply_orientation orientation (w, h)
  let width := p.1
  let height_actual := p.2
  if height_actual ≤ height then (width, height_actual)
  else (Nat.floor ((width : ℚ) * ((height : ℚ) / (height_actual : ℚ))), height)

/-! ## Single-asset trigger handler (main.process) -/

/-- The `options` field of a single-asset trigger payload, and the options
dictionary handed to `FileProcessor.process`. -/
structure PyOptions where
  height : Option Nat
  output_format : Option String
deriving DecidableEq, Repr

/-- The empty dictionary `{}`. -/
def PyOptions.empty : PyOptions := { height := none, output_format := none }

/-- `options.get('height', THUMBNAIL_HEIGHT)` in
`FileProcessor.process_image` / `process_video`. -/
def options_get_height (options : PyOptions) : Nat :=
  options.height.getD THUMBNAIL_HEIGHT

/-- What `main.process` does with a single-asset trigger. -/
inductive MainAction where
  | skipped
  | processed (options : PyOptions)
deriving DecidableEq, Repr

/-- The skip condition of `main.process` (lines 88-90): derived-directory
names (including via `file_name.upper()`), or a name ending in `.webp` or
`.ts`. -/
def main_single_skip (file_name : String) : Bool :=
  str_in "/THUMBS/" file_name || py_endswith file_name "/THUMBS" ||
    str_in "/THUMBS/" (py_upper file_name) ||
  str_in "/COMPRESSED/" file_name || py_endswith file_name "/COMPRESSED" ||
    str_in "/COMPRESSED/" (py_upper file_name) ||
  py_endswith file_name ".webp" || py_endswith file_name ".ts"

/-- The single-asset path of `main.process` (lines 80-111): return early on
an empty name or on the skip condition, else call `FileProcessor.process`
with `options={}` — the payload's `options` field is never read. -/
def main_process_single (file_name : String) (_payload_options : Option PyOptions) :
    MainAction :=
  if file_name == "" then .skipped
  else if main_single_skip file_name then .skipped
  else .processed PyOptions.empty

/-! ## Claim theorems -/

/-- Claim C1: the claim says that after a zero-exit transcode, a timed-out
60-second wait for the uploader or an uploader-reported error sends the
pipeline to Failed.  The code does neither: the boolean result of
`upload_success.wait(timeout=60)` is discarded, and the `upload_error` the
caller tests is the value `create_upload_worker` returned at creation time
(`None` — the worker's `nonlocal` rebinding is invisible to the caller), so
finalization reports success both when the uploader's PUT failed with a
non-2xx status and when the upload is still pending at wait expiry.  Only a
nonzero ffmpeg exit fails. -/
theorem claim_C1 :
    pipeline_finalize 0 (UploadOutcome.completed false) = Except.ok ()
    ∧ (upload_worker_run (UploadOutcome.completed false)).err
        = some "Upload failed: HTTP error"
    ∧ (upload_worker_run (UploadOutcome.completed false)).event_set = true
    ∧ pipeline_finalize 0 UploadOutcome.pending = Except.ok ()
    ∧ (upload_worker_run UploadOutcome.pending).event_set = false
    ∧ create_upload_worker_error_binding = none
    ∧ pipeline_finalize 1 (UploadOutcome.completed true)
        = Except.error "FFmpeg failed with code 1" :=
  ⟨rfl, rfl, rfl, rfl, rfl, rfl, rfl⟩

/-- Claim C2: the claim says the path the bulk idempotency check probes for
a video equals the path the pipeline wrote.  For thumbnails that is true
(both are `dir/THUMBS/stem.webp`), but for compressed video it fails with
the default format: `RunBulk.get_compressed_path` probes
`dir/COMPRESSED/stem.ts` (CLI default `--format ts`,
`VIDEO_OUTPUT_FORMAT = "ts"`), while `FileProcessor._prepare_file_paths`
hardcodes `dir/COMPRESSED/stem.webm` — so a second run re-invokes the
pipeline for every video. -/
theorem claim_C2 :
    get_compressed_path "clips/a.mp4" "ts" = "clips/COMPRESSED/a.ts"
    ∧ (prepare_file_paths "clips/a.mp4").compressed_path = "clips/COMPRESSED/a.webm"
    ∧ get_compressed_path "clips/a.mp4" "ts"
        ≠ (prepare_file_paths "clips/a.mp4").compressed_path
    ∧ get_compressed_path "clips/a.mp4" VIDEO_FORMAT_WEBM
        = (prepare_file_paths "clips/a.mp4").compressed_path
    ∧ VIDEO_OUTPUT_FORMAT = "ts"
    ∧ ∀ p, get_thumb_path p = (prepare_file_paths p).thumbs_path :=
  ⟨by decide, by decide, by decide, by decide, rfl, fun p => rfl⟩

/-- Claim C5: the claim (and the comment above `should_process_file`) says
derived directories are excluded in any letter case, but the code tests only
the literal spellings `/THUMBS/`, `/thumbs/`, `/COMPRESSED/`,
`/compressed/` (and enumeration only the uppercase ones): a mixed-case
`photos/Thumbs/pic.jpg` survives enumeration and is selected for
processing, and a lowercase `photos/thumbs/pic.jpg` survives enumeration. -/
theorem claim_C5 :
    bulk_enumeration_skip "photos/Thumbs/pic.jpg" = false
    ∧ should_process_file "photos/Thumbs/pic.jpg" none = true
    ∧ bulk_enumeration_skip "photos/thumbs/pic.jpg" = false
    ∧ should_process_file "photos/thumbs/pic.jpg" none = false
    ∧ bulk_enumeration_skip "photos/THUMBS/pic.jpg" = true
    ∧ should_process_file "photos/Compressed/clip.mp4" none = true := by
  decide

/-- The blob of C3's counterexample: a supported image whose thumbnail
already exists in the store and whose processing (were it submitted) would
succeed. -/
def blobC3 : Blob :=
  { name := "photos/img.jpg", content_type := some "image/jpeg",
    already_processed := true, process_ok := true }

/-- Counterexample to claim C3: an already-processed supported image yields
`success_count = 0`, not `1` — the orchestrator skips it with `continue`
before the counting loop, so it is not counted as a success. -/
theorem counterexample_C3 :
    should_process_file blobC3.name blobC3.content_type = true
    ∧ blobC3.already_processed = true
    ∧ process_files_in_parallel [blobC3] = (0, 0)
    ∧ (process_files_in_parallel [blobC3]).1 ≠ 1 := by
  decide

/-- Sum of a boolean count and its complement. -/
theorem countP_bool_sum {α : Type} (p : α → Bool) (l : List α) :
    l.countP p + l.countP (fun a => !p a) = l.length := by
  induction l with
  | nil => rfl
  | cons x xs ih =>
    cases hx : p x <;> simp [List.countP_cons, hx] <;> omega

/-- Claim C3 (amended): assets whose derived outputs already exist are
excluded from the dispatch list and from both counters; `success_count`
counts exactly the assets submitted in this run whose processing
succeeded, and the two counters together cover exactly the submitted
assets. -/
theorem claim_C3 (blobs : List Blob) :
    (∀ b, b ∈ blobs → b.already_processed = true → ¬ b ∈ to_process blobs)
    ∧ (process_files_in_parallel blobs).1 + (process_files_in_parallel blobs).2
        = (to_process blobs).length
    ∧ (process_files_in_parallel blobs).1
        = List.countP (fun b => b.process_ok) (to_process blobs) := by
  refine ⟨?_, ?_, rfl⟩
  · intro b _hb hap hmem
    have h := (List.mem_filter.mp hmem).2
    rw [hap] at h
    simp at h
  · exact countP_bool_sum (fun b => b.process_ok) (to_process blobs)

/-- Witness for C3: the amended claim applied to the singleton list holding
`blobC3`. -/
theorem claim_C3_witness :
    ¬ blobC3 ∈ to_process [blobC3]
    ∧ (process_files_in_parallel [blobC3]).1 + (process_files_in_parallel [blobC3]).2
        = (to_process [blobC3]).length :=
  ⟨(claim_C3 [blobC3]).1 blobC3 (by simp) rfl, (claim_C3 [blobC3]).2.1⟩

/-- The float comparison `file_size_bytes / 2^30 < t` in the selector is the
exact rational comparison `file_size_bytes < t * 2^30`. -/
theorem gib_lt_iff (s t : Nat) :
    ((s : ℚ) / (1024 * 1024 * 1024) < (t : ℚ)) ↔ s < t * 1073741824 := by
  rw [div_lt_iff₀ (by norm_num : (0 : ℚ) < 1024 * 1024 * 1024)]
  have h : (t : ℚ) * (1024 * 1024 * 1024) = ((t * 1073741824 : ℕ) : ℚ) := by
    push_cast
    ring
  rw [h, Nat.cast_lt]

/-- Counterexample to claim C4: at exactly 1 GiB the selector returns the
Medium settings, not the Small ones — the strict `<` on the threshold puts
the boundary in the higher bucket (and likewise 5 GiB lands in Large). -/
theorem counterexample_C4 :
    determine_video_settings 1073741824 = MEDIUM_VIDEO_SETTINGS
    ∧ MEDIUM_VIDEO_SETTINGS ≠ SMALL_VIDEO_SETTINGS
    ∧ determine_video_settings 5368709120 = LARGE_VIDEO_SETTINGS
    ∧ LARGE_VIDEO_SETTINGS ≠ MEDIUM_VIDEO_SETTINGS := by
  refine ⟨?_, by decide, ?_, by decide⟩ <;>
    norm_num [determine_video_settings, SMALL_VIDEO_THRESHOLD, MEDIUM_VIDEO_THRESHOLD]

/-- Characterization of the selector's bucket in terms of exact byte
thresholds. -/
theorem bucket_iff (s : Nat) :
    (determine_video_bucket s = SizeBucket.small ↔ s < 1073741824)
    ∧ (determine_video_bucket s = SizeBucket.medium
        ↔ 1073741824 ≤ s ∧ s < 5368709120)
    ∧ (determine_video_bucket s = SizeBucket.large ↔ 5368709120 ≤ s) := by
  have h1 : ((s : ℚ) / (1024 * 1024 * 1024) < (SMALL_VIDEO_THRESHOLD : ℚ))
      ↔ s < 1073741824 := by
    simpa [SMALL_VIDEO_THRESHOLD] using gib_lt_iff s SMALL_VIDEO_THRESHOLD
  have h5 : ((s : ℚ) / (1024 * 1024 * 1024) < (MEDIUM_VIDEO_THRESHOLD : ℚ))
      ↔ s < 5368709120 := by
    simpa [MEDIUM_VIDEO_THRESHOLD] using gib_lt_iff s MEDIUM_VIDEO_THRESHOLD
  unfold determine_video_bucket
  dsimp only
  split_ifs with c1 c5
  · have hs := h1.mp c1
    refine ⟨?_, ?_, ?_⟩ <;> simp <;> omega
  · have hs1 := (not_congr h1).mp c1
    have hs5 := h5.mp c5
    refine ⟨?_, ?_, ?_⟩ <;> simp <;> omega
  · have hs1 := (not_congr h1).mp c1
    have hs5 := (not_congr h5).mp c5
    refine ⟨?_, ?_, ?_⟩ <;> simp <;> omega

/-- The selector returns exactly its bucket's settings tuple. -/
theorem settings_bucket_eq (s : Nat) :
    determine_video_settings s = bucket_settings (determine_video_bucket s) := by
  unfold determine_video_settings determine_video_bucket bucket_settings
  dsimp only
  split_ifs <;> rfl

/-- Claim C4 (amended): the selector is a total function partitioning the
sizes into the three buckets with no gaps or overlaps, but a size exactly
equal to a threshold belongs to the HIGHER of the two adjacent buckets
(the strict `<` on the threshold excludes the boundary from the lower
bucket): 1 GiB is Medium and 5 GiB is Large. -/
theorem claim_C4 (s : Nat) :
    determine_video_settings s = bucket_settings (determine_video_bucket s)
    ∧ (determine_video_bucket s = SizeBucket.small ↔ s < 1073741824)
    ∧ (determine_video_bucket s = SizeBucket.medium
        ↔ 1073741824 ≤ s ∧ s < 5368709120)
    ∧ (determine_video_bucket s = SizeBucket.large ↔ 5368709120 ≤ s)
    ∧ determine_video_bucket 1073741824 = SizeBucket.medium
    ∧ determine_video_bucket 5368709120 = SizeBucket.large :=
  ⟨settings_bucket_eq s, (bucket_iff s).1, (bucket_iff s).2.1, (bucket_iff s).2.2,
   (bucket_iff 1073741824).2.1.mpr (by norm_num),
   (bucket_iff 5368709120).2.2.mpr (by norm_num)⟩

/-- Witness for C4: the amended claim applied at size 0 (Small) and at the
1 GiB boundary (Medium). -/
theorem claim_C4_witness :
    determine_video_bucket 0 = SizeBucket.small
    ∧ determine_video_settings 1073741824
        = bucket_settings (determine_video_bucket 1073741824) :=
  ⟨(claim_C4 0).2.1.mpr (by norm_num), (claim_C4 1073741824).1⟩

/-- Claim C6: the fallback thumbnail attempt runs exactly when the 10-second
primary attempt times out or exits nonzero; it uses the same scale filter
and quality arguments but no time budget; and when it too fails the error
escapes `extract_thumbnail` and fails the whole video pipeline — the asset
is never reported successful without a thumbnail. -/
theorem claim_C6 (primary : RunResult) (fallback_ok : Bool)
    (url tstr hstr outp : String) :
    ((extract_thumbnail primary fallback_ok).1 = true ↔ primary ≠ RunResult.ok)
    ∧ ((extract_thumbnail primary fallback_ok).2 = Except.error thumbnail_error
        ↔ primary ≠ RunResult.ok ∧ fallback_ok = false)
    ∧ (primary = RunResult.ok ∨ fallback_ok = true →
        (extract_thumbnail primary fallback_ok).2 = Except.ok ())
    ∧ (primary_thumbnail_call url tstr hstr outp).timeout_s = some 10
    ∧ (fallback_thumbnail_call url hstr outp).timeout_s = none
    ∧ thumb_scale_arg hstr ∈ (primary_thumbnail_call url tstr hstr outp).cmd
    ∧ thumb_scale_arg hstr ∈ (fallback_thumbnail_call url hstr outp).cmd
    ∧ toString IMAGE_OUTPUT_QUALITY ∈ (primary_thumbnail_call url tstr hstr outp).cmd
    ∧ toString IMAGE_OUTPUT_QUALITY ∈ (fallback_thumbnail_call url hstr outp).cmd
    ∧ ∀ fs d vh ffz up,
        (extract_thumbnail primary fallback_ok).2 = Except.error thumbnail_error →
        process_video_model fs d vh primary fallback_ok ffz up
          = Except.error thumbnail_error := by
  refine ⟨?_, ?_, ?_, rfl, rfl, ?_, ?_, ?_, ?_, ?_⟩
  · cases primary <;> cases fallback_ok <;> simp [extract_thumbnail]
  · cases primary <;> cases fallback_ok <;> simp [extract_thumbnail]
  · cases primary <;> cases fallback_ok <;> simp [extract_thumbnail]
  · simp [primary_thumbnail_call]
  · simp [fallback_thumbnail_call]
  · simp [primary_thumbnail_call]
  · simp [fallback_thumbnail_call]
  · intro fs d vh ffz up herr
    unfold process_video_model
    rw [herr]

/-- Witness for C6: a timed-out primary attempt with a failing fallback at
concrete arguments. -/
theorem claim_C6_witness :
    (extract_thumbnail RunResult.timedOut false).1 = true
    ∧ (extract_thumbnail RunResult.timedOut false).2 = Except.error thumbnail_error
    ∧ (primary_thumbnail_call "u" "3.0" "512" "t.webp").timeout_s = some 10
    ∧ process_video_model 104857600 8 0 RunResult.timedOut false 0
        (UploadOutcome.completed true) = Except.error thumbnail_error := by
  have h := claim_C6 RunResult.timedOut false "u" "3.0" "512" "t.webp"
  refine ⟨h.1.mpr (by decide), ?_, h.2.2.2.1, ?_⟩
  · exact h.2.1.mpr ⟨by decide, rfl⟩
  · exact h.2.2.2.2.2.2.2.2.2 104857600 8 0 0 (UploadOutcome.completed true)
      (h.2.1.mpr ⟨by decide, rfl⟩)

/-- Claim C7: the image encoder's output height is
`min (corrected source height) (requested height)` — at most the request,
equal to it exactly when the orientation-corrected source height exceeds
it, the source height otherwise (never upscaled) — and in the downscale
case the width is `int(width * (height / height_actual))`. -/
theorem claim_C7 (o w h target : Nat) :
    (compress_image_dims o w h target).2 = min (apply_orientation o (w, h)).2 target
    ∧ (compress_image_dims o w h target).2 ≤ target
    ∧ ((apply_orientation o (w, h)).2 ≤ target →
        compress_image_dims o w h target = apply_orientation o (w, h))
    ∧ (target < (apply_orientation o (w, h)).2 →
        compress_image_dims o w h target
          = (Nat.floor (((apply_orientation o (w, h)).1 : ℚ)
              * ((target : ℚ) / ((apply_orientation o (w, h)).2 : ℚ))), target)) := by
  unfold compress_image_dims
  by_cases hle : (apply_orientation o (w, h)).2 ≤ target
  · simp [hle, Nat.min_eq_left hle]
  · have hlt : target < (apply_orientation o (w, h)).2 := by omega
    simp [hle, Nat.min_eq_right (le_of_lt hlt)]

/-- Witness for C7: a 1000x800 image with EXIF orientation 6 (dimensions
swap to 800x1000) downscaled to height 512, and a 400x300 image left at its
original size. -/
theorem claim_C7_witness :
    (compress_image_dims 6 1000 800 512).2 = min (apply_orientation 6 (1000, 800)).2 512
    ∧ compress_image_dims 6 1000 800 512
        = (Nat.floor (((apply_orientation 6 (1000, 800)).1 : ℚ)
            * ((512 : ℚ) / ((apply_orientation 6 (1000, 800)).2 : ℚ))), 512)
    ∧ compress_image_dims 1 400 300 512 = apply_orientation 1 (400, 300) := by
  have h1 := claim_C7 6 1000 800 512
  have h2 := claim_C7 1 400 300 512
  exact ⟨h1.1, h1.2.2.2 (by decide), h2.2.2.1 (by decide)⟩

/-- Claim C8: the thumbnail offset is the midpoint for durations under 10
seconds and `min(3, duration/10)` otherwise; in particular 8 s gives 4.0,
20 s gives 2.0, and 30 s and 100 s both give 3.0. -/
theorem claim_C8 (d : ℚ) (_hd : 0 ≤ d) :
    (d < 10 → determine_thumbnail_position d = d / 2)
    ∧ (10 ≤ d → determine_thumbnail_position d = min 3 (d / 10))
    ∧ determine_thumbnail_position 8 = 4
    ∧ determine_thumbnail_position 20 = 2
    ∧ determine_thumbnail_position 30 = 3
    ∧ determine_thumbnail_position 100 = 3 := by
  refine ⟨?_, ?_, ?_, ?_, ?_, ?_⟩
  · intro hlt
    simp [determine_thumbnail_position, hlt]
  · intro hge
    simp [determine_thumbnail_position, not_lt.mpr hge]
  · norm_num [determine_thumbnail_position]
  · rw [determine_thumbnail_position]
    norm_num
  · rw [determine_thumbnail_position]
    norm_num
  · rw [determine_thumbnail_position]
    norm_num

/-- Witness for C8: the offset function applied at duration 8. -/
theorem claim_C8_witness :
    determine_thumbnail_position 8 = 8 / 2
    ∧ determine_thumbnail_position 8 = 4
    ∧ determine_thumbnail_position 100 = 3 := by
  have h := claim_C8 8 (by norm_num)
  exact ⟨h.1 (by norm_num), h.2.2.1, (claim_C8 100 (by norm_num)).2.2.2.2.2⟩

/-- Claim C9: before transcoding, a known probed height (positive) strictly
below the selected target resolution clamps the target down to it, leaving
the other settings untouched; a probed height of 0 leaves the settings
unchanged; the resolution never increases. -/
theorem claim_C9 (video_height : Nat) (s : CompressionSettings) :
    (adjust_resolution video_height s).resolution ≤ s.resolution
    ∧ (0 < video_height → video_height < s.resolution →
        (adjust_resolution video_height s).resolution = video_height
        ∧ (adjust_resolution video_height s).crf = s.crf
        ∧ (adjust_resolution video_height s).audio_bitrate = s.audio_bitrate)
    ∧ (video_height = 0 → adjust_resolution video_height s = s)
    ∧ (s.resolution ≤ video_height → adjust_resolution video_height s = s) := by
  unfold adjust_resolution
  by_cases hc : 0 < video_height ∧ video_height < s.resolution
  · simp [hc]
    omega
  · simp [hc]
    intro h1 h2
    exact absurd ⟨h1, h2⟩ hc

/-- Witness for C9: a 480-pixel probe against the Small settings (clamped to
480) and an unknown height against the Medium settings (unchanged). -/
theorem claim_C9_witness :
    (adjust_resolution 480 SMALL_VIDEO_SETTINGS).resolution = 480
    ∧ adjust_resolution 0 MEDIUM_VIDEO_SETTINGS = MEDIUM_VIDEO_SETTINGS := by
  have h1 := claim_C9 480 SMALL_VIDEO_SETTINGS
  have h2 := claim_C9 0 MEDIUM_VIDEO_SETTINGS
  exact ⟨(h1.2.1 (by decide) (by decide)).1, h2.2.2.1 rfl⟩

/-- Claim C10: the single-asset handler either skips a trigger or calls the
file processor with the empty options dictionary — whatever `options` the
payload carried — so the default thumbnail height 512 and the default video
format apply; and any name ending in `.webp` or `.ts` is skipped outright
even though those extensions classify as a supported image and a supported
video respectively. -/
theorem claim_C10 (file_name : String) (payload : Option PyOptions) :
    (main_process_single file_name payload = MainAction.skipped
      ∨ main_process_single file_name payload = MainAction.processed PyOptions.empty)
    ∧ (∀ o, main_process_single file_name payload = MainAction.processed o →
        options_get_height o = 512
        ∧ ffmpeg_format_type o.output_format = VIDEO_OUTPUT_FORMAT)
    ∧ (py_endswith file_name ".webp" = true →
        main_process_single file_name payload = MainAction.skipped)
    ∧ (py_endswith file_name ".ts" = true →
        main_process_single file_name payload = MainAction.skipped)
    ∧ SUPPORTED_IMAGE_EXTENSIONS.contains ".webp" = true
    ∧ VIDEO_FORMATS.contains ".ts" = true
    ∧ get_file_type none (some "clips/a.ts") = TYPE_VIDEO
    ∧ get_file_type none (some "photos/b.webp") = TYPE_IMAGE
    ∧ THUMBNAIL_HEIGHT = 512 := by
  refine ⟨?_, ?_, ?_, ?_, by decide, by decide, by decide, by decide, rfl⟩
  · unfold main_process_single
    by_cases h0 : file_name == ""
    · simp [h0]
    · by_cases h1 : main_single_skip file_name <;> simp [h0, h1]
  · intro o ho
    unfold main_process_single at ho
    by_cases h0 : file_name == ""
    · simp [h0] at ho
    · by_cases h1 : main_single_skip file_name
      · simp [h0, h1] at ho
      · simp [h0, h1] at ho
        rw [← ho]
        exact ⟨rfl, rfl⟩
  · intro hw
    unfold main_process_single
    by_cases h0 : file_name == ""
    · simp [h0]
    · have hs : main_single_skip file_name = true := by
        unfold main_single_skip
        rw [hw]
        simp
      simp [h0, hs]
  · intro hw
    unfold main_process_single
    by_cases h0 : file_name == ""
    · simp [h0]
    · have hs : main_single_skip file_name = true := by
        unfold main_single_skip
        rw [hw]
        simp
      simp [h0, hs]

/-- Witness for C10: a `.webp` original with explicit payload options is
skipped, and a processed `.jpg` trigger ends up with the default height. -/
theorem claim_C10_witness :
    main_process_single "a/b.webp"
        (some { height := some 256, output_format := some "webm" })
      = MainAction.skipped
    ∧ options_get_height PyOptions.empty = 512 := by
  have h1 := claim_C10 "a/b.webp"
    (some { height := some 256, output_format := some "webm" })
  have h2 := claim_C10 "x/c.jpg" none
  refine ⟨h1.2.2.1 (by decide), ?_⟩
  exact (h2.2.1 PyOptions.empty (by decide)).1

end ImageCrusher
